import Mathlib

/-!
Shallow embedding of the Viva Wallet payment-plugin core
(token cache, gateway client, webhook signature validation, webhook
settlement processing) and proofs about its specified behaviour.

Sources embedded:
- `src/utils/encryption.ts` (`timingSafeCompare`, `createHmacSignature`)
- `src/services/WebhookValidator.ts` (`validateSignature`)
- `src/services/VivaWalletService.ts` (`createPaymentOrder`, `getCheckoutUrl`)
- `src/services/TokenManager.ts` (`getToken`, `refreshToken`, `clearToken`)
- `src/endpoints/handlers.ts` (`webhookHandler`, `processPaymentSuccess`,
  `processPaymentFailed`)

JavaScript value truthiness matters in several branches (`if (deliveryId)`,
`data.expires_in || 3600`, `!result.orderCode`): absent values, empty
strings and the number 0 are all falsy.  Optional values are modelled as
`Option` and truthiness is made explicit with `strTruthy` / `natTruthy`.
-/

namespace VivaWallet

/-- JS truthiness of an optional string: `undefined` and `""` are falsy. -/
def strTruthy : Option String → Bool
  | none => false
  | some s => s ≠ ""

/-- JS truthiness of an optional number: `undefined` and `0` are falsy. -/
def natTruthy : Option Nat → Bool
  | none => false
  | some n => n ≠ 0

/-! ## Signature verification

`src/utils/encryption.ts` and `src/services/WebhookValidator.ts`.
The cryptographic HMAC itself is kept abstract: an `HmacFn` maps an
algorithm, a secret and the raw body bytes to the hex-encoded digest,
exactly the shape of `createHmacSignature`. -/

/-- The two HMAC algorithms `createHmacSignature` accepts. -/
inductive HmacAlg
  | sha1
  | sha256
deriving DecidableEq

/-- Abstract hex-encoded HMAC: algorithm, secret, raw body bytes to hex digest. -/
abbrev HmacFn := HmacAlg → String → List Nat → String

/-- ASCII lowercasing, the model of JS `String.prototype.toLowerCase`
as applied to the (hex/ASCII) signature strings. -/
def lowerStr (s : String) : String := String.mk (s.data.map Char.toLower)

/-- `timingSafeCompare` from `src/utils/encryption.ts`: an equal-length
check, then byte-wise constant-time equality (`crypto.timingSafeEqual`).
The byte-wise equality of equal-length strings is string equality. -/
def timingSafeCompare (a b : String) : Bool :=
  if a.length ≠ b.length then false else a == b

/-- The result of `timingSafeCompare` coincides with string equality
(the length guard only affects timing, not the outcome). -/
theorem timingSafeCompare_eq_beq (a b : String) : timingSafeCompare a b = (a == b) := by
  unfold timingSafeCompare
  by_cases h : a.length = b.length
  · simp [h]
  · simp only [h, if_pos, ne_eq, not_false_iff, if_true]
    have : a ≠ b := fun hab => h (hab ▸ rfl)
    simp [this]

/-- Configuration of `WebhookValidator` (constructor fields). -/
structure WebhookValidator where
  webhookSecret : String
  allowUnsigned : Bool
deriving DecidableEq

/-- `validateHMAC256` / `validateHMAC1` from `WebhookValidator.ts`:
guard on a configured secret, compute the hex HMAC of the raw body with
the given algorithm, then timing-safe compare after lowercasing both. -/
def validateHMAC (v : WebhookValidator) (hmac : HmacFn) (alg : HmacAlg)
    (rawBody : List Nat) (signature : String) : Bool :=
  if v.webhookSecret = "" then false
  else timingSafeCompare (lowerStr signature) (lowerStr (hmac alg v.webhookSecret rawBody))

/-- `validateSignature` from `WebhookValidator.ts`: development shortcut
when no secret is configured, unsigned-allowed handling when no signature
header is truthy, then SHA-256 preferred over legacy SHA-1. -/
def validateSignature (v : WebhookValidator) (hmac : HmacFn) (rawBody : List Nat)
    (signature256 signature : Option String) : Bool :=
  if v.webhookSecret = "" && v.allowUnsigned then true
  else if v.webhookSecret ≠ "" && !strTruthy signature256 && !strTruthy signature then
    v.allowUnsigned
  else if strTruthy signature256 then
    validateHMAC v hmac .sha256 rawBody (signature256.getD "")
  else if strTruthy signature then
    validateHMAC v hmac .sha1 rawBody (signature.getD "")
  else false

/-! ## Gateway client (`src/services/VivaWalletService.ts`) -/

/-- Deployment environment. -/
inductive Env
  | demo
  | live
deriving DecidableEq

/-- Checkout domain chosen inside `getCheckoutUrl`. -/
def envCheckoutDomain : Env → String
  | .demo => "https://demo.vivapayments.com"
  | .live => "https://www.vivapayments.com"

/-- `getCheckoutUrl`: checkout domain by environment joined with the fixed
path template and the order code. -/
def getCheckoutUrl (env : Env) (orderCode : String) : String :=
  envCheckoutDomain env ++ "/web/checkout?ref=" ++ orderCode

/-- Body of the gateway's order-creation response (`CreateOrderResponse`
in `src/types/api.ts`) as already parsed by `response.json()`; fields
can be absent at runtime.  The numeric fields hold the values the
JavaScript parse produced, i.e. after IEEE-754 double rounding — the
wire-to-parsed relation is `parseOrderResponse` below. -/
structure CreateOrderResponse where
  errorCode : Option Nat
  errorText : Option String
  orderCode : Option Nat
deriving DecidableEq

/-- The HTTP response `createPaymentOrder` inspects: `response.ok`,
`response.status` and the parsed JSON body. -/
structure HttpResponse where
  ok : Bool
  status : Nat
  body : CreateOrderResponse
deriving DecidableEq

/-- The two failure shapes `createPaymentOrder` throws:
`Viva API Error [code]: text` and `Invalid response: missing orderCode`. -/
inductive OrderError
  | apiError (code : Nat) (text : String)
  | missingOrderCode
deriving DecidableEq

/-- Value returned by a successful `createPaymentOrder`. -/
structure OrderResult where
  checkoutUrl : String
  orderCode : String
deriving DecidableEq

/-- Response handling of `createPaymentOrder` (lines 106-143 of
`VivaWalletService.ts`): throw on `!response.ok || (errorCode && errorCode !== 0)`
with `errorCode || response.status` and `errorText || 'Unknown error'`;
throw on falsy `orderCode`; otherwise stringify the order code
(`String(result.orderCode)`, modelled by `Nat.repr`) and build the URL. -/
def createPaymentOrderResult (env : Env) (resp : HttpResponse) :
    Except OrderError OrderResult :=
  if !resp.ok || natTruthy resp.body.errorCode then
    .error (.apiError
      (if natTruthy resp.body.errorCode then resp.body.errorCode.getD 0 else resp.status)
      (if strTruthy resp.body.errorText then resp.body.errorText.getD "" else "Unknown error"))
  else if !natTruthy resp.body.orderCode then
    .error .missingOrderCode
  else
    let orderCode := Nat.repr (resp.body.orderCode.getD 0)
    .ok { checkoutUrl := getCheckoutUrl env orderCode, orderCode := orderCode }

/-- The integer value `response.json()` (line 106 of
`VivaWalletService.ts`) yields for an exact integer numeral `n` on the
wire, for `n < 2 ^ 54`: JSON numbers become IEEE-754 doubles, which
represent every integer up to `2 ^ 53` exactly, while in
`[2 ^ 53, 2 ^ 54)` only the even integers are representable and an odd
value is a tie between its two even neighbours, resolved to the
neighbour with even significand (round-half-to-even): `n - 1` when
`n % 4 = 1`, `n + 1` when `n % 4 = 3`.  All 16-digit order codes lie
below `2 ^ 54 = 18014398509481984`, so this covers them. -/
def jsonParsedNat (n : Nat) : Nat :=
  if n ≤ 2 ^ 53 then n
  else if n % 2 = 0 then n
  else if n % 4 = 1 then n - 1
  else n + 1

/-- The parsed body `response.json()` produces from a wire-level
gateway response carrying exact integer numerals: each numeric field
passes through IEEE-754 double rounding (`jsonParsedNat`), strings are
unchanged.  `String(result.orderCode)` then runs on the already-rounded
value. -/
def parseOrderResponse (wire : CreateOrderResponse) : CreateOrderResponse :=
  { errorCode := wire.errorCode.map jsonParsedNat
    errorText := wire.errorText
    orderCode := wire.orderCode.map jsonParsedNat }

/-! ## Webhook settlement processing (`src/endpoints/handlers.ts`)

`webhookHandler` after signature admission (lines 179-213): the
idempotency check on the `viva-delivery-id` header, then dispatch on
`event.EventTypeId` to `processPaymentSuccess` / `processPaymentFailed`.
The document store is modelled as the two collections the handler touches,
with `find` (`limit: 1`, field-equality `where`) as `List.find?`,
`update` by id as a map, and `create` as an append. -/

/-- `status` field of a `viva-payment-orders` document. -/
inductive OrderStatus
  | pending
  | completed
  | failed
  | cancelled
deriving DecidableEq

/-- A `viva-payment-orders` document (the fields settlement touches). -/
structure Order where
  id : Nat
  orderCode : String
  status : OrderStatus
deriving DecidableEq

/-- `EventData` of a transaction webhook event (`TransactionEventData`
in `src/types/webhook.ts`, the fields the handlers read). -/
structure EventData where
  amount : Int
  cardNumber : Option String
  email : Option String
  fullName : Option String
  orderCode : Nat
  statusId : String
  transactionId : String
deriving DecidableEq

/-- A webhook event as parsed from the raw body. -/
structure WebhookEvent where
  eventTypeId : Nat
  eventData : EventData
deriving DecidableEq

/-- A `viva-transactions` document as created by the settlement handlers. -/
structure Txn where
  amount : Int
  cardLastFour : Option String
  customerEmail : Option String
  customerName : Option String
  eventData : WebhookEvent
  eventTypeId : Nat
  orderCode : String
  processedAt : Nat
  statusId : String
  transactionId : String
  vivaDeliveryId : Option String
deriving DecidableEq

/-- The two collections settlement processing reads and writes. -/
structure Store where
  orders : List Order
  transactions : List Txn
deriving DecidableEq

/-- `find` on `viva-payment-orders` with `limit: 1` and
`where: { orderCode: { equals: code } }`. -/
def findOrder (orders : List Order) (code : String) : Option Order :=
  orders.find? fun o => o.orderCode == code

/-- `update` on `viva-payment-orders` by document id, setting `status`. -/
def updateOrderStatus (orders : List Order) (id : Nat) (st : OrderStatus) : List Order :=
  orders.map fun o => if o.id = id then { o with status := st } else o

/-- JS `s.slice(-4)`: the last four characters. -/
def lastFour (s : String) : String := s.drop (s.length - 4)

/-- The `viva-transactions` document created by `processPaymentSuccess`. -/
def mkSuccessTxn (now : Nat) (event : WebhookEvent) (deliveryId : Option String) : Txn :=
  { amount := event.eventData.amount
    cardLastFour := event.eventData.cardNumber.map lastFour
    customerEmail := event.eventData.email
    customerName := event.eventData.fullName
    eventData := event
    eventTypeId := event.eventTypeId
    orderCode := Nat.repr event.eventData.orderCode
    processedAt := now
    statusId := event.eventData.statusId
    transactionId := event.eventData.transactionId
    vivaDeliveryId := deliveryId }

/-- The `viva-transactions` document created by `processPaymentFailed`
(`statusId` forced to `"F"`, no card/customer capture). -/
def mkFailedTxn (now : Nat) (event : WebhookEvent) (deliveryId : Option String) : Txn :=
  { amount := event.eventData.amount
    cardLastFour := none
    customerEmail := none
    customerName := none
    eventData := event
    eventTypeId := event.eventTypeId
    orderCode := Nat.repr event.eventData.orderCode
    processedAt := now
    statusId := "F"
    transactionId := event.eventData.transactionId
    vivaDeliveryId := deliveryId }

/-- `processPaymentSuccess`: look up the order by the stringified
`OrderCode`; when found set its status to `completed` (unconditionally);
then create the transaction record. -/
def processPaymentSuccess (now : Nat) (store : Store) (event : WebhookEvent)
    (deliveryId : Option String) : Store :=
  let orders :=
    match findOrder store.orders (Nat.repr event.eventData.orderCode) with
    | some o => updateOrderStatus store.orders o.id .completed
    | none => store.orders
  { orders := orders
    transactions := store.transactions ++ [mkSuccessTxn now event deliveryId] }

/-- `processPaymentFailed`: same lookup, set status to `failed` when
found, then create the transaction record with `statusId: 'F'`. -/
def processPaymentFailed (now : Nat) (store : Store) (event : WebhookEvent)
    (deliveryId : Option String) : Store :=
  let orders :=
    match findOrder store.orders (Nat.repr event.eventData.orderCode) with
    | some o => updateOrderStatus store.orders o.id .failed
    | none => store.orders
  { orders := orders
    transactions := store.transactions ++ [mkFailedTxn now event deliveryId] }

/-- `find` on `viva-transactions` with
`where: { vivaDeliveryId: { equals: deliveryId } }`, tested for `totalDocs > 0`. -/
def hasDelivery (store : Store) (deliveryId : Option String) : Bool :=
  store.transactions.any fun t => t.vivaDeliveryId == deliveryId

/-- Outcome attached to the handler's `{ success: true }` response. -/
inductive WebhookOutcome
  | alreadyProcessed
  | processed
deriving DecidableEq

/-- `webhookHandler`, lines 179-213 (after signature admission): when
the delivery-id header is truthy and a transaction already bears it,
return success untouched; otherwise dispatch on the event type
(1796 success, 1798 failure, anything else ignored). -/
def webhookProcess (now : Nat) (deliveryId : Option String) (event : WebhookEvent)
    (store : Store) : Store × WebhookOutcome :=
  if strTruthy deliveryId && hasDelivery store deliveryId then
    (store, .alreadyProcessed)
  else
    match event.eventTypeId with
    | 1796 => (processPaymentSuccess now store event deliveryId, .processed)
    | 1798 => (processPaymentFailed now store event deliveryId, .processed)
    | _ => (store, .processed)

/-- Repeated processing of the same delivery (same header, same payload). -/
def processIter (now : Nat) (deliveryId : Option String) (event : WebhookEvent) :
    Nat → Store → Store
  | 0, store => store
  | k + 1, store => processIter now deliveryId event k (webhookProcess now deliveryId event store).1

/-- Spec-side description of the order transition used to state the
amended state machine: the first order whose `orderCode` equals the code
gets the given status, all other orders are unchanged. -/
def setFirstMatching (code : String) (st : OrderStatus) : List Order → List Order
  | [] => []
  | o :: rest =>
    if o.orderCode == code then { o with status := st } :: rest
    else o :: setFirstMatching code st rest

/-! ## Token manager (`src/services/TokenManager.ts`)

`getToken` / `refreshToken` / `clearToken`.  Time is milliseconds since
epoch (`Date.now()`); the network is an oracle: the outcome the single
`fetch` of `refreshToken` would produce is passed in as a `FetchOutcome`,
and the request that `fetch` would be given is reported alongside the
result so that its construction can be specified.  Base64 is abstract. -/

/-- Credentials and environment held by `TokenManager`. -/
structure TMConfig where
  clientId : String
  clientSecret : String
  environment : Env
deriving DecidableEq

/-- `getAuthUrl`: the OAuth2 token endpoint by environment. -/
def authUrl : Env → String
  | .demo => "https://demo-accounts.vivapayments.com/connect/token"
  | .live => "https://accounts.vivapayments.com/connect/token"

/-- The outbound token request as built inside `refreshToken`. -/
structure TokenRequest where
  url : String
  authorization : String
  contentType : String
  requestMethod : String
  body : String
deriving DecidableEq

/-- The request `refreshToken` issues: POST to the environment's token
endpoint, HTTP Basic from base64 of `clientId:clientSecret`, form body
`grant_type=client_credentials`. -/
def buildTokenRequest (b64 : String → String) (cfg : TMConfig) : TokenRequest :=
  { url := authUrl cfg.environment
    authorization := "Basic " ++ b64 (cfg.clientId ++ ":" ++ cfg.clientSecret)
    contentType := "application/x-www-form-urlencoded"
    requestMethod := "POST"
    body := "grant_type=client_credentials" }

/-- Parsed JSON of the authorization server's response; fields can be
absent at runtime. -/
structure TokenResponseM where
  access_token : Option String
  expires_in : Option Nat
deriving DecidableEq

/-- Mutable cache of `TokenManager`: `token` and `tokenExpiry`
(milliseconds since epoch). -/
structure TMState where
  token : Option String
  tokenExpiry : Option Nat
deriving DecidableEq

/-- What the `fetch` inside `refreshToken` produces: an ok response with
a parsed body, a non-ok HTTP response, or a network failure. -/
inductive FetchOutcome
  | ok (resp : TokenResponseM)
  | httpError (status : Nat) (statusText : String) (body : String)
  | netError (msg : String)
deriving DecidableEq

/-- `clearToken`: discard the cached token and expiry. -/
def clearTokenS (_st : TMState) : TMState := { token := none, tokenExpiry := none }

/-- `refreshToken`: on an ok response with a truthy `access_token`, cache
it with expiry `now + (expires_in || 3600) * 1000` and return it; every
failure path (non-ok HTTP, network error, falsy `access_token`) calls
`clearToken` and throws a wrapped error. -/
def refreshTokenM (now : Nat) (outcome : FetchOutcome) (st : TMState) :
    Except String String × TMState :=
  match outcome with
  | .ok resp =>
    if strTruthy resp.access_token then
      let tok := resp.access_token.getD ""
      let expiresIn := if natTruthy resp.expires_in then resp.expires_in.getD 0 else 3600
      (.ok tok, { token := some tok, tokenExpiry := some (now + expiresIn * 1000) })
    else
      (.error "Failed to obtain Viva Wallet access token: Invalid token response: missing access_token",
        clearTokenS st)
  | .httpError status statusText body =>
    (.error ("Failed to obtain Viva Wallet access token: Token request failed: "
        ++ Nat.repr status ++ " " ++ statusText ++ ". Response: " ++ body),
      clearTokenS st)
  | .netError msg =>
    (.error ("Failed to obtain Viva Wallet access token: " ++ msg), clearTokenS st)

/-- The cache-validity test of `getToken`:
`this.token && this.tokenExpiry` (truthiness) and
`this.tokenExpiry > bufferTime` with a 5-minute buffer. -/
def cacheValid (now : Nat) (token : Option String) (tokenExpiry : Option Nat) : Bool :=
  strTruthy token &&
    (match tokenExpiry with
     | some exp => decide (exp > now + 5 * 60 * 1000)
     | none => false)

/-- `getToken` for a single sequential call (no refresh already in
flight; coalescing of concurrent calls is modelled below): return the
cached token when it is truthy and expires more than 5 minutes after
`now`, otherwise refresh.  The third component lists the outbound
requests issued by the call. -/
def getTokenM (b64 : String → String) (cfg : TMConfig) (now : Nat)
    (outcome : FetchOutcome) (st : TMState) :
    Except String String × TMState × List TokenRequest :=
  if cacheValid now st.token st.tokenExpiry then
    (.ok (st.token.getD ""), st, [])
  else
    let (r, st') := refreshTokenM now outcome st
    (r, st', [buildTokenRequest b64 cfg])

/-! ### Coalescing of concurrent `getToken` calls

JavaScript's run-to-completion semantics makes everything between two
`await`s atomic.  Inside `getToken` the in-flight check, the cache check
and the assignment `this.refreshPromise = this.refreshToken()` run with
no intervening `await` (the `fetch` inside `refreshToken` suspends only
after the assignment), so a caller's entry into `getToken` is one atomic
step (`startCall`).  The resolution of the shared refresh promise and
the initiator's `finally { this.refreshPromise = null }` form the other
step (`completeRefresh`).  An arbitrary interleaving of N calls during
an invalid-cache window is then: some sequence of `startCall` steps,
then `completeRefresh`. -/

/-- Global state shared by concurrent `getToken` callers. -/
structure CoalesceState where
  token : Option String
  tokenExpiry : Option Nat
  refreshInFlight : Bool
  requests : Nat
  waiting : Nat
  results : List (Except String String)

/-- The shared state before any caller arrives: no cached token, no
in-flight refresh, no request issued. -/
def initialCoalesceState : CoalesceState :=
  { token := none, tokenExpiry := none, refreshInFlight := false,
    requests := 0, waiting := 0, results := [] }

/-- One caller enters `getToken`: if a refresh is in flight it awaits the
shared promise; else a valid cache resolves it immediately; else it
issues the one request and becomes the initiator, also awaiting. -/
def startCall (now : Nat) (s : CoalesceState) : CoalesceState :=
  if s.refreshInFlight then { s with waiting := s.waiting + 1 }
  else if cacheValid now s.token s.tokenExpiry then
    { s with results := s.results ++ [.ok (s.token.getD "")] }
  else
    { s with refreshInFlight := true, requests := s.requests + 1, waiting := s.waiting + 1 }

/-- The in-flight refresh settles with `outcome`: every awaiting caller
observes the same result (`refreshTokenM`), and the pending handle is
cleared (the `finally`, plus `clearToken` on the failure path). -/
def completeRefresh (now : Nat) (outcome : FetchOutcome) (s : CoalesceState) : CoalesceState :=
  let (r, st') := refreshTokenM now outcome { token := s.token, tokenExpiry := s.tokenExpiry }
  { token := st'.token
    tokenExpiry := st'.tokenExpiry
    refreshInFlight := false
    requests := s.requests
    waiting := 0
    results := s.results ++ List.replicate s.waiting r }

/-! ## Theorems -/

/-- Falsity of JS number truthiness means absent or zero. -/
theorem natTruthy_eq_false {o : Option Nat} : natTruthy o = false ↔ (o = none ∨ o = some 0) := by
  cases o with
  | none => simp [natTruthy]
  | some n => simp [natTruthy]

/-- JS number truthiness means present and nonzero. -/
theorem natTruthy_eq_true {o : Option Nat} : natTruthy o = true ↔ ∃ c, o = some c ∧ c ≠ 0 := by
  cases o with
  | none => simp [natTruthy]
  | some n => simp [natTruthy]

/-- Claim C9: the checkout URL is a pure deterministic function of the
environment and the order code, equal to
`{environment-domain}/web/checkout?ref={orderCode}`, with the demo and
live environments yielding the distinct domains
`demo.vivapayments.com` and `www.vivapayments.com`. -/
theorem getCheckoutUrl_pure (env : Env) (orderCode : String) :
    getCheckoutUrl env orderCode = envCheckoutDomain env ++ "/web/checkout?ref=" ++ orderCode ∧
    getCheckoutUrl .demo orderCode = "https://demo.vivapayments.com/web/checkout?ref=" ++ orderCode ∧
    getCheckoutUrl .live orderCode = "https://www.vivapayments.com/web/checkout?ref=" ++ orderCode ∧
    envCheckoutDomain .demo ≠ envCheckoutDomain .live := by
  refine ⟨rfl, ?_, ?_, by decide⟩
  · show (envCheckoutDomain .demo ++ "/web/checkout?ref=") ++ orderCode = _
    rfl
  · show (envCheckoutDomain .live ++ "/web/checkout?ref=") ++ orderCode = _
    rfl

/-- Claim C8 fails in the program: the gateway's 16-digit order code
9007199254740993 exceeds `2 ^ 53`, so `response.json()` has already
rounded it to 9007199254740992 when `String(result.orderCode)` runs —
the call succeeds but stores and returns "9007199254740992", not the
original digit sequence.  (Below `2 ^ 53` the parse is exact and the
round trip does hold; the loss occurs only in `(2 ^ 53, 10 ^ 16)`.) -/
theorem createPaymentOrder_orderCode_rounding_bug :
    createPaymentOrderResult .demo
        { ok := true, status := 200,
          body := parseOrderResponse
            { errorCode := some 0, errorText := none,
              orderCode := some 9007199254740993 } } =
      .ok { checkoutUrl := "https://demo.vivapayments.com/web/checkout?ref=9007199254740992",
            orderCode := "9007199254740992" } ∧
    jsonParsedNat 9007199254740993 = 9007199254740992 ∧
    "9007199254740992" ≠ "9007199254740993" := ⟨rfl, by decide, by decide⟩

/-- Claim C7 fails as stated: a response that is HTTP-ok, has error code
0 and has an order code present in the response (the number 0) does not
succeed — `!result.orderCode` treats the present value 0 as missing. -/
theorem createPaymentOrder_success_iff_cex :
    ¬((createPaymentOrderResult .demo
          { ok := true, status := 200,
            body := { errorCode := some 0, errorText := none, orderCode := some 0 } }).isOk = true ↔
      ((true : Bool) = true ∧
        ((some 0 : Option Nat) = none ∨ (some 0 : Option Nat) = some 0) ∧
        (some 0 : Option Nat) ≠ none)) := by decide

/-- Claim C7 amended: `createPaymentOrder` succeeds iff the HTTP response
is ok, the error-code field is zero or absent, and a nonzero order code
is present; when the HTTP response is not ok or the error code is
nonzero, the error carries the provider's error code and (nonempty)
error text when available, or the HTTP status / "Unknown error"
otherwise; when only the order code is absent (or zero) the error
reports the missing order code instead. -/
theorem createPaymentOrder_result_spec (env : Env) (resp : HttpResponse) :
    ((createPaymentOrderResult env resp).isOk = true ↔
      (resp.ok = true ∧ (resp.body.errorCode = none ∨ resp.body.errorCode = some 0) ∧
        ∃ c, resp.body.orderCode = some c ∧ c ≠ 0)) ∧
    (¬(resp.ok = true ∧ (resp.body.errorCode = none ∨ resp.body.errorCode = some 0)) →
      createPaymentOrderResult env resp =
        .error (.apiError
          (if natTruthy resp.body.errorCode then resp.body.errorCode.getD 0 else resp.status)
          (if strTruthy resp.body.errorText then resp.body.errorText.getD ""
           else "Unknown error"))) ∧
    ((resp.ok = true ∧ (resp.body.errorCode = none ∨ resp.body.errorCode = some 0)) →
      ¬(∃ c, resp.body.orderCode = some c ∧ c ≠ 0) →
      createPaymentOrderResult env resp = .error .missingOrderCode) := by
  refine ⟨?_, ?_, ?_⟩
  · have key : (createPaymentOrderResult env resp).isOk
        = (resp.ok && !natTruthy resp.body.errorCode && natTruthy resp.body.orderCode) := by
      unfold createPaymentOrderResult
      cases h1 : resp.ok <;> cases h2 : natTruthy resp.body.errorCode <;>
        cases h3 : natTruthy resp.body.orderCode <;> simp [h1, h2, h3, Except.isOk, Except.toBool]
    rw [key]
    simp only [Bool.and_eq_true, Bool.not_eq_true', natTruthy_eq_false, natTruthy_eq_true]
    tauto
  · intro h
    have hcond : (!resp.ok || natTruthy resp.body.errorCode) = true := by
      cases h1 : resp.ok
      · simp
      · simp only [Bool.not_true, Bool.false_or]
        cases h2 : natTruthy resp.body.errorCode
        · exact absurd ⟨h1, natTruthy_eq_false.mp h2⟩ h
        · rfl
    unfold createPaymentOrderResult
    simp [hcond]
  · intro h hno
    unfold createPaymentOrderResult
    obtain ⟨h1, h2⟩ := h
    have h2' : natTruthy resp.body.errorCode = false := natTruthy_eq_false.mpr h2
    have h3' : natTruthy resp.body.orderCode = false := by
      cases hb : natTruthy resp.body.orderCode
      · rfl
      · exact absurd (natTruthy_eq_true.mp hb) hno
    simp [h1, h2', h3']

/-- Witness for C7 (amended) at a failing HTTP response with no provider
error detail: the error carries the HTTP status and "Unknown error". -/
theorem createPaymentOrder_result_spec_witness :
    createPaymentOrderResult .demo
        { ok := false, status := 404,
          body := { errorCode := none, errorText := none, orderCode := none } } =
      .error (.apiError 404 "Unknown error") :=
  ((createPaymentOrder_result_spec .demo
      { ok := false, status := 404,
        body := { errorCode := none, errorText := none, orderCode := none } }).2.1
    (by simp)).trans rfl

/-- Claim C4: with a configured non-empty webhook secret, a supplied
SHA-256 signature is accepted iff it equals, case-insensitively, the
hex-encoded HMAC-SHA256 of the exact raw body under the secret (the
comparison being the equal-length-then-byte-wise `timingSafeCompare`);
with only the legacy signature supplied the same holds with HMAC-SHA1;
with neither supplied the delivery is accepted exactly in
unsigned-allowed mode. -/
theorem validateSignature_spec (hmac : HmacFn) (v : WebhookValidator) (rawBody : List Nat)
    (sig256 sig : Option String) (hsec : v.webhookSecret ≠ "") :
    (strTruthy sig256 = true →
      validateSignature v hmac rawBody sig256 sig =
        timingSafeCompare (lowerStr (sig256.getD ""))
          (lowerStr (hmac .sha256 v.webhookSecret rawBody)) ∧
      validateSignature v hmac rawBody sig256 sig =
        (lowerStr (sig256.getD "") == lowerStr (hmac .sha256 v.webhookSecret rawBody))) ∧
    (strTruthy sig256 = false → strTruthy sig = true →
      validateSignature v hmac rawBody sig256 sig =
        timingSafeCompare (lowerStr (sig.getD ""))
          (lowerStr (hmac .sha1 v.webhookSecret rawBody)) ∧
      validateSignature v hmac rawBody sig256 sig =
        (lowerStr (sig.getD "") == lowerStr (hmac .sha1 v.webhookSecret rawBody))) ∧
    (strTruthy sig256 = false → strTruthy sig = false →
      validateSignature v hmac rawBody sig256 sig = v.allowUnsigned) := by
  refine ⟨?_, ?_, ?_⟩
  · intro h256
    have hfirst : (decide (v.webhookSecret = "") && v.allowUnsigned) = false := by
      simp [hsec]
    have hsecond : (decide (v.webhookSecret ≠ "") && !strTruthy sig256 && !strTruthy sig)
        = false := by simp [h256]
    constructor
    · unfold validateSignature validateHMAC
      simp [hfirst, hsecond, h256, hsec]
    · unfold validateSignature validateHMAC
      simp [hfirst, hsecond, h256, hsec, timingSafeCompare_eq_beq]
  · intro h256 h1
    have hfirst : (decide (v.webhookSecret = "") && v.allowUnsigned) = false := by
      simp [hsec]
    have hsecond : (decide (v.webhookSecret ≠ "") && !strTruthy sig256 && !strTruthy sig)
        = false := by simp [h1]
    constructor
    · unfold validateSignature validateHMAC
      simp [hfirst, hsecond, h256, h1, hsec]
    · unfold validateSignature validateHMAC
      simp [hfirst, hsecond, h256, h1, hsec, timingSafeCompare_eq_beq]
  · intro h256 h1
    unfold validateSignature
    simp [hsec, h256, h1]

/-- Witness for C4: a concrete validator, abstract digest "aa", supplied
value "AA"; the SHA-256 branch accepts case-insensitively. -/
theorem validateSignature_spec_witness :
    validateSignature { webhookSecret := "k", allowUnsigned := false }
        (fun _ _ _ => "aa") [1, 2] (some "AA") none = true :=
  (((validateSignature_spec (fun _ _ _ => "aa")
      { webhookSecret := "k", allowUnsigned := false } [1, 2] (some "AA") none
      (by decide)).1 (by decide)).2).trans (by rfl)

/-- Orders after `processPaymentSuccess`: the first order matching the
stringified event order code (if any) gets status `completed`. -/
theorem processPaymentSuccess_orders (now : Nat) (store : Store) (event : WebhookEvent)
    (deliveryId : Option String) :
    (processPaymentSuccess now store event deliveryId).orders =
      match findOrder store.orders (Nat.repr event.eventData.orderCode) with
      | some o => updateOrderStatus store.orders o.id .completed
      | none => store.orders := rfl

/-- Transactions after `processPaymentSuccess`: one appended record. -/
theorem processPaymentSuccess_transactions (now : Nat) (store : Store) (event : WebhookEvent)
    (deliveryId : Option String) :
    (processPaymentSuccess now store event deliveryId).transactions =
      store.transactions ++ [mkSuccessTxn now event deliveryId] := rfl

/-- Orders after `processPaymentFailed`: the first order matching the
stringified event order code (if any) gets status `failed`. -/
theorem processPaymentFailed_orders (now : Nat) (store : Store) (event : WebhookEvent)
    (deliveryId : Option String) :
    (processPaymentFailed now store event deliveryId).orders =
      match findOrder store.orders (Nat.repr event.eventData.orderCode) with
      | some o => updateOrderStatus store.orders o.id .failed
      | none => store.orders := rfl

/-- Transactions after `processPaymentFailed`: one appended record. -/
theorem processPaymentFailed_transactions (now : Nat) (store : Store) (event : WebhookEvent)
    (deliveryId : Option String) :
    (processPaymentFailed now store event deliveryId).transactions =
      store.transactions ++ [mkFailedTxn now event deliveryId] := rfl

/-- When the delivery id is untruthy or unseen, the handler dispatches
on the event type. -/
theorem webhookProcess_not_dup {now : Nat} {deliveryId : Option String} {event : WebhookEvent}
    {store : Store} (h : (strTruthy deliveryId && hasDelivery store deliveryId) = false) :
    webhookProcess now deliveryId event store =
      match event.eventTypeId with
      | 1796 => (processPaymentSuccess now store event deliveryId, .processed)
      | 1798 => (processPaymentFailed now store event deliveryId, .processed)
      | _ => (store, .processed) := by
  unfold webhookProcess
  simp [h]

/-- Dispatch on a payment-created (1796) event. -/
theorem webhookProcess_1796 {now : Nat} {deliveryId : Option String} {event : WebhookEvent}
    {store : Store} (h : (strTruthy deliveryId && hasDelivery store deliveryId) = false)
    (htyp : event.eventTypeId = 1796) :
    webhookProcess now deliveryId event store =
      (processPaymentSuccess now store event deliveryId, .processed) := by
  rw [webhookProcess_not_dup h, htyp]

/-- Dispatch on a payment-failed (1798) event. -/
theorem webhookProcess_1798 {now : Nat} {deliveryId : Option String} {event : WebhookEvent}
    {store : Store} (h : (strTruthy deliveryId && hasDelivery store deliveryId) = false)
    (htyp : event.eventTypeId = 1798) :
    webhookProcess now deliveryId event store =
      (processPaymentFailed now store event deliveryId, .processed) := by
  rw [webhookProcess_not_dup h, htyp]

/-- Any other event type leaves the store untouched. -/
theorem webhookProcess_other {now : Nat} {deliveryId : Option String} {event : WebhookEvent}
    {store : Store} (h : (strTruthy deliveryId && hasDelivery store deliveryId) = false)
    (h96 : event.eventTypeId ≠ 1796) (h98 : event.eventTypeId ≠ 1798) :
    webhookProcess now deliveryId event store = (store, .processed) := by
  rw [webhookProcess_not_dup h]
  split
  · exact absurd (by assumption) h96
  · exact absurd (by assumption) h98
  · rfl

/-- Every order after `updateOrderStatus` is an order from before with
at most the status overwritten. -/
theorem mem_updateOrderStatus {orders : List Order} {id : Nat} {st : OrderStatus} {o' : Order}
    (h : o' ∈ updateOrderStatus orders id st) :
    ∃ o ∈ orders, o'.id = o.id ∧ o'.orderCode = o.orderCode ∧ (o' = o ∨ o'.status = st) := by
  unfold updateOrderStatus at h
  obtain ⟨o, ho, rfl⟩ := List.mem_map.1 h
  by_cases hid : o.id = id
  · exact ⟨o, ho, by simp [hid]⟩
  · exact ⟨o, ho, by simp [hid]⟩

/-- `updateOrderStatus` with an id no order bears is the identity. -/
theorem updateOrderStatus_not_mem {orders : List Order} {id : Nat} {st : OrderStatus}
    (h : id ∉ orders.map Order.id) : updateOrderStatus orders id st = orders := by
  unfold updateOrderStatus
  induction orders with
  | nil => rfl
  | cons o rest ih =>
    simp only [List.map_cons, List.mem_cons, not_or] at h
    obtain ⟨h1, h2⟩ := h
    simp only [List.map_cons]
    rw [if_neg (fun he => h1 he.symm)]
    exact congrArg (o :: ·) (ih h2)

/-- Under unique order ids, looking up the first order matching a code
and overwriting its status is exactly `setFirstMatching`. -/
theorem updateFound_eq_setFirstMatching (code : String) (st : OrderStatus) (orders : List Order)
    (hids : (orders.map Order.id).Nodup) :
    (match findOrder orders code with
      | some o => updateOrderStatus orders o.id st
      | none => orders) = setFirstMatching code st orders := by
  induction orders with
  | nil => rfl
  | cons o rest ih =>
    simp only [List.map_cons, List.nodup_cons] at hids
    obtain ⟨hnot, hnd⟩ := hids
    by_cases hm : (o.orderCode == code) = true
    · rw [show findOrder (o :: rest) code = some o from List.find?_cons_of_pos _ hm]
      unfold setFirstMatching
      rw [if_pos hm]
      show (if o.id = o.id then { o with status := st } else o) ::
          updateOrderStatus rest o.id st = _
      rw [if_pos rfl, updateOrderStatus_not_mem hnot]
    · have hfind : findOrder (o :: rest) code = findOrder rest code :=
        List.find?_cons_of_neg _ (by simpa using hm)
      unfold setFirstMatching
      rw [if_neg hm, hfind]
      cases hr : findOrder rest code with
      | none =>
        have := ih hnd
        rw [hr] at this
        exact congrArg (o :: ·) this
      | some q =>
        have hq : q ∈ rest := by
          have := List.mem_of_find?_eq_some hr
          exact this
        have hne : ¬(o.id = q.id) := fun he => hnot (he ▸ List.mem_map_of_mem Order.id hq)
        show (if o.id = q.id then { o with status := st } else o) ::
            updateOrderStatus rest q.id st = _
        rw [if_neg hne]
        have := ih hnd
        rw [hr] at this
        exact congrArg (o :: ·) this

/-- Claim C1 fails as stated: an order already in the terminal state
`failed` is moved to `completed` by a later payment-created (1796)
webhook delivery bearing a fresh delivery identifier — the status update
in `processPaymentSuccess` does not consult the current status. -/
theorem webhook_terminal_state_cex :
    (webhookProcess 0 (some "d2")
        { eventTypeId := 1796
          eventData := { amount := 100, cardNumber := none, email := none, fullName := none,
                         orderCode := 42, statusId := "A", transactionId := "t1" } }
        { orders := [{ id := 1, orderCode := "42", status := .failed }],
          transactions := [] }).1.orders
      = [{ id := 1, orderCode := "42", status := .completed }] := by decide

/-- Claim C1 amended: webhook processing can overwrite a terminal status
(a 1796 event writes `completed` and a 1798 event writes `failed`
whatever the current status), but it never writes `pending`: every order
after processing comes from the store before with its status either
unchanged or set to `completed`/`failed`, so in particular no order
regresses from a terminal state back to `pending`. -/
theorem webhook_no_regression_to_pending (now : Nat) (deliveryId : Option String)
    (event : WebhookEvent) (store : Store) (o' : Order)
    (h : o' ∈ (webhookProcess now deliveryId event store).1.orders) :
    ∃ o ∈ store.orders, o'.id = o.id ∧ o'.orderCode = o.orderCode ∧
      (o'.status = o.status ∨ o'.status = .completed ∨ o'.status = .failed) := by
  have self : ∀ oo ∈ store.orders, ∃ o ∈ store.orders, oo.id = o.id ∧
      oo.orderCode = o.orderCode ∧
      (oo.status = o.status ∨ oo.status = .completed ∨ oo.status = .failed) :=
    fun oo hoo => ⟨oo, hoo, rfl, rfl, .inl rfl⟩
  by_cases hdup : (strTruthy deliveryId && hasDelivery store deliveryId) = true
  · have hstep : webhookProcess now deliveryId event store = (store, .alreadyProcessed) := by
      unfold webhookProcess
      simp [hdup]
    rw [hstep] at h
    exact self o' h
  · have hnd : (strTruthy deliveryId && hasDelivery store deliveryId) = false := by
      simpa using hdup
    by_cases h96 : event.eventTypeId = 1796
    · rw [webhookProcess_1796 hnd h96] at h
      replace h : o' ∈ (processPaymentSuccess now store event deliveryId).orders := h
      rw [processPaymentSuccess_orders] at h
      split at h
      · rcases mem_updateOrderStatus h with ⟨o, ho, hid, hoc, heq | hst⟩
        · exact ⟨o, ho, hid, hoc, .inl (by rw [heq])⟩
        · exact ⟨o, ho, hid, hoc, .inr (.inl hst)⟩
      · exact self o' h
    · by_cases h98 : event.eventTypeId = 1798
      · rw [webhookProcess_1798 hnd h98] at h
        replace h : o' ∈ (processPaymentFailed now store event deliveryId).orders := h
        rw [processPaymentFailed_orders] at h
        split at h
        · rcases mem_updateOrderStatus h with ⟨o, ho, hid, hoc, heq | hst⟩
          · exact ⟨o, ho, hid, hoc, .inl (by rw [heq])⟩
          · exact ⟨o, ho, hid, hoc, .inr (.inr hst)⟩
        · exact self o' h
      · rw [webhookProcess_other hnd h96 h98] at h
        exact self o' h

/-- Witness for C1 (amended): the completed order produced by a 1796
delivery descends from the stored pending order. -/
theorem webhook_no_regression_to_pending_witness :
    ∃ o ∈ ({ orders := [{ id := 1, orderCode := "42", status := .pending }],
             transactions := [] } : Store).orders,
      ({ id := 1, orderCode := "42", status := .completed } : Order).id = o.id ∧
      ({ id := 1, orderCode := "42", status := .completed } : Order).orderCode = o.orderCode ∧
      (({ id := 1, orderCode := "42", status := .completed } : Order).status = o.status ∨
        ({ id := 1, orderCode := "42", status := .completed } : Order).status = .completed ∨
        ({ id := 1, orderCode := "42", status := .completed } : Order).status = .failed) :=
  webhook_no_regression_to_pending 0 none
    { eventTypeId := 1796
      eventData := { amount := 100, cardNumber := none, email := none, fullName := none,
                     orderCode := 42, statusId := "A", transactionId := "t1" } }
    { orders := [{ id := 1, orderCode := "42", status := .pending }], transactions := [] }
    { id := 1, orderCode := "42", status := .completed } (by decide)

/-- Claim C2: when the delivery-identifier header is present (truthy)
and a transaction already bears it, the handler acknowledges success
and leaves the store unchanged — and therefore arbitrarily many
repeated deliveries of that identifier leave it unchanged. -/
theorem webhook_duplicate_delivery_noop (now : Nat) (d : String) (event : WebhookEvent)
    (store : Store) (hd : d ≠ "")
    (hex : ∃ t ∈ store.transactions, t.vivaDeliveryId = some d) :
    webhookProcess now (some d) event store = (store, .alreadyProcessed) ∧
    ∀ k, processIter now (some d) event k store = store := by
  have hcond : (strTruthy (some d) && hasDelivery store (some d)) = true := by
    obtain ⟨t, ht, htd⟩ := hex
    unfold hasDelivery
    simp only [strTruthy, Bool.and_eq_true, List.any_eq_true, decide_eq_true_eq]
    exact ⟨hd, t, ht, by simp [htd]⟩
  have hmain : webhookProcess now (some d) event store = (store, .alreadyProcessed) := by
    unfold webhookProcess
    simp [hcond]
  refine ⟨hmain, ?_⟩
  intro k
  induction k with
  | zero => rfl
  | succ n ih =>
    show processIter now (some d) event n (webhookProcess now (some d) event store).1 = store
    rw [hmain]
    exact ih

/-- Witness for C2: a second delivery of "d1" is acknowledged without
touching the store. -/
theorem webhook_duplicate_delivery_noop_witness :
    webhookProcess 7 (some "d1")
        { eventTypeId := 1796
          eventData := { amount := 100, cardNumber := none, email := none, fullName := none,
                         orderCode := 42, statusId := "A", transactionId := "t1" } }
        { orders := []
          transactions := [mkSuccessTxn 0
            { eventTypeId := 1796
              eventData := { amount := 100, cardNumber := none, email := none, fullName := none,
                             orderCode := 42, statusId := "A", transactionId := "t1" } }
            (some "d1")] }
      = ({ orders := []
           transactions := [mkSuccessTxn 0
             { eventTypeId := 1796
               eventData := { amount := 100, cardNumber := none, email := none, fullName := none,
                              orderCode := 42, statusId := "A", transactionId := "t1" } }
             (some "d1")] }, .alreadyProcessed) :=
  (webhook_duplicate_delivery_noop 7 "d1" _ _ (by decide) (by decide)).1

/-- Claim C3 fails as stated: a payment-created (1796) event whose
status id is "F" still moves the pending order to `completed` — the
claim requires status "A" for that transition and predicts `failed` on
status "F"; the handler never consults the status id. -/
theorem webhook_state_machine_cex :
    (webhookProcess 0 none
        { eventTypeId := 1796
          eventData := { amount := 100, cardNumber := none, email := none, fullName := none,
                         orderCode := 7, statusId := "F", transactionId := "t2" } }
        { orders := [{ id := 1, orderCode := "7", status := .pending }],
          transactions := [] }).1.orders
      = [{ id := 1, orderCode := "7", status := .completed }] := by decide

/-- Claim C3 amended: for an admitted event on a store with unique order
ids, a 1796 event sets the first order matching the event's order code
to `completed` and a 1798 event sets it to `failed` — both irrespective
of the event's status id — each appending exactly one transaction
record; an event of any other type changes nothing at all (in
particular, no transaction record is persisted for it). -/
theorem webhook_state_machine_amended (now : Nat) (deliveryId : Option String)
    (event : WebhookEvent) (store : Store)
    (hgate : (strTruthy deliveryId && hasDelivery store deliveryId) = false)
    (hids : (store.orders.map Order.id).Nodup) :
    (event.eventTypeId = 1796 →
      (webhookProcess now deliveryId event store).1.orders =
        setFirstMatching (Nat.repr event.eventData.orderCode) .completed store.orders ∧
      (webhookProcess now deliveryId event store).1.transactions =
        store.transactions ++ [mkSuccessTxn now event deliveryId]) ∧
    (event.eventTypeId = 1798 →
      (webhookProcess now deliveryId event store).1.orders =
        setFirstMatching (Nat.repr event.eventData.orderCode) .failed store.orders ∧
      (webhookProcess now deliveryId event store).1.transactions =
        store.transactions ++ [mkFailedTxn now event deliveryId]) ∧
    (event.eventTypeId ≠ 1796 → event.eventTypeId ≠ 1798 →
      (webhookProcess now deliveryId event store).1 = store) := by
  refine ⟨?_, ?_, ?_⟩
  · intro h96
    rw [webhookProcess_1796 hgate h96]
    exact ⟨(processPaymentSuccess_orders now store event deliveryId).trans
        (updateFound_eq_setFirstMatching _ _ _ hids),
      processPaymentSuccess_transactions now store event deliveryId⟩
  · intro h98
    rw [webhookProcess_1798 hgate h98]
    exact ⟨(processPaymentFailed_orders now store event deliveryId).trans
        (updateFound_eq_setFirstMatching _ _ _ hids),
      processPaymentFailed_transactions now store event deliveryId⟩
  · intro h96 h98
    rw [webhookProcess_other hgate h96 h98]

/-- Witness for C3 (amended) at a concrete 1796 event on a pending
order: first matching order completed, one record appended. -/
theorem webhook_state_machine_amended_witness :
    (webhookProcess 0 none
        { eventTypeId := 1796
          eventData := { amount := 100, cardNumber := none, email := none, fullName := none,
                         orderCode := 7, statusId := "F", transactionId := "t2" } }
        { orders := [{ id := 1, orderCode := "7", status := .pending }],
          transactions := [] }).1.orders
      = setFirstMatching "7" .completed [{ id := 1, orderCode := "7", status := .pending }] ∧
    (webhookProcess 0 none
        { eventTypeId := 1796
          eventData := { amount := 100, cardNumber := none, email := none, fullName := none,
                         orderCode := 7, statusId := "F", transactionId := "t2" } }
        { orders := [{ id := 1, orderCode := "7", status := .pending }],
          transactions := [] }).1.transactions
      = [] ++ [mkSuccessTxn 0
          { eventTypeId := 1796
            eventData := { amount := 100, cardNumber := none, email := none, fullName := none,
                           orderCode := 7, statusId := "F", transactionId := "t2" } } none] :=
  (webhook_state_machine_amended 0 none _ _ (by decide) (by decide)).1 rfl

/-- Claim C10: without a delivery identifier no idempotency check
happens: processing the same admitted payment-created or payment-failed
payload twice appends two transaction records, both bearing the same
transaction id — no deduplication by transaction id. -/
theorem webhook_no_dedup_without_delivery_id (now1 now2 : Nat) (event : WebhookEvent)
    (store : Store) (htyp : event.eventTypeId = 1796 ∨ event.eventTypeId = 1798) :
    ((webhookProcess now2 none event
        (webhookProcess now1 none event store).1).1.transactions.length
      = store.transactions.length + 2) ∧
    ∀ t ∈ (webhookProcess now2 none event
        (webhookProcess now1 none event store).1).1.transactions.drop
          store.transactions.length,
      t.transactionId = event.eventData.transactionId := by
  have hnone : ∀ s : Store, (strTruthy (none : Option String) && hasDelivery s none) = false := by
    intro s
    simp [strTruthy]
  rcases htyp with h96 | h98
  · rw [webhookProcess_1796 (hnone store) h96]
    rw [show ((processPaymentSuccess now1 store event none, WebhookOutcome.processed)).1
        = processPaymentSuccess now1 store event none from rfl]
    rw [webhookProcess_1796 (hnone (processPaymentSuccess now1 store event none)) h96]
    rw [show ((processPaymentSuccess now2 (processPaymentSuccess now1 store event none) event none,
          WebhookOutcome.processed)).1
        = processPaymentSuccess now2 (processPaymentSuccess now1 store event none) event none
        from rfl]
    rw [processPaymentSuccess_transactions, processPaymentSuccess_transactions]
    constructor
    · simp
    · intro t ht
      rw [List.append_assoc, List.drop_left] at ht
      simp only [List.mem_append, List.mem_singleton] at ht
      rcases ht with rfl | rfl
      · rfl
      · rfl
  · rw [webhookProcess_1798 (hnone store) h98]
    rw [show ((processPaymentFailed now1 store event none, WebhookOutcome.processed)).1
        = processPaymentFailed now1 store event none from rfl]
    rw [webhookProcess_1798 (hnone (processPaymentFailed now1 store event none)) h98]
    rw [show ((processPaymentFailed now2 (processPaymentFailed now1 store event none) event none,
          WebhookOutcome.processed)).1
        = processPaymentFailed now2 (processPaymentFailed now1 store event none) event none
        from rfl]
    rw [processPaymentFailed_transactions, processPaymentFailed_transactions]
    constructor
    · simp
    · intro t ht
      rw [List.append_assoc, List.drop_left] at ht
      simp only [List.mem_append, List.mem_singleton] at ht
      rcases ht with rfl | rfl
      · rfl
      · rfl

/-- Witness for C10: two identical 1796 deliveries without a delivery id
leave two transaction records behind. -/
theorem webhook_no_dedup_without_delivery_id_witness :
    ((webhookProcess 1 none
        { eventTypeId := 1796
          eventData := { amount := 100, cardNumber := none, email := none, fullName := none,
                         orderCode := 7, statusId := "A", transactionId := "t9" } }
        (webhookProcess 0 none
          { eventTypeId := 1796
            eventData := { amount := 100, cardNumber := none, email := none, fullName := none,
                           orderCode := 7, statusId := "A", transactionId := "t9" } }
          { orders := [], transactions := [] }).1).1.transactions.length = 2) :=
  (webhook_no_dedup_without_delivery_id 0 1
    { eventTypeId := 1796
      eventData := { amount := 100, cardNumber := none, email := none, fullName := none,
                     orderCode := 7, statusId := "A", transactionId := "t9" } }
    { orders := [], transactions := [] } (.inl rfl)).1

/-- When the cache is invalid, `getToken` refreshes and issues exactly
the one client-credentials request. -/
theorem getTokenM_refresh (b64 : String → String) (cfg : TMConfig) (now : Nat)
    (outcome : FetchOutcome) (st : TMState)
    (hcv : cacheValid now st.token st.tokenExpiry = false) :
    getTokenM b64 cfg now outcome st =
      ((refreshTokenM now outcome st).1, (refreshTokenM now outcome st).2,
        [buildTokenRequest b64 cfg]) := by
  unfold getTokenM
  rw [hcv]
  rcases hp : refreshTokenM now outcome st with ⟨r, st2⟩
  rfl

/-- Claim C5 fails at `expires_in = 0`: `data.expires_in || 3600`
treats the present value 0 as absent, so the token is cached with
expiry `now + 3600` seconds instead of `now + 0` as the claim's
`expiry = now + expires_in` requires. -/
theorem getToken_expires_in_zero_cex :
    (getTokenM (fun s => s) { clientId := "a", clientSecret := "b", environment := .demo } 0
        (.ok { access_token := some "tok", expires_in := some 0 })
        { token := none, tokenExpiry := none }).2.1.tokenExpiry = some 3600000 ∧
    (3600000 : Nat) ≠ 0 + 0 * 1000 := ⟨rfl, by decide⟩

/-- Claim C5 amended: a cached token whose expiry lies more than 5
minutes ahead is returned with no outbound request; otherwise exactly
one client-credentials request is issued (HTTP Basic from base64 of
`clientId:clientSecret`, body `grant_type=client_credentials`), and on
an ok response carrying an access token the token is returned and
cached with expiry `now + expires_in` seconds, where `expires_in`
defaults to 3600 when absent — or when present but zero. -/
theorem getToken_spec (b64 : String → String) (cfg : TMConfig) (now : Nat)
    (outcome : FetchOutcome) (st : TMState) :
    (∀ t e, st.token = some t → t ≠ "" → st.tokenExpiry = some e → now + 5 * 60 * 1000 < e →
      getTokenM b64 cfg now outcome st = (.ok t, st, [])) ∧
    (cacheValid now st.token st.tokenExpiry = false →
      (getTokenM b64 cfg now outcome st).2.2 = [buildTokenRequest b64 cfg] ∧
      (∀ resp tok, outcome = .ok resp → resp.access_token = some tok → tok ≠ "" →
        (getTokenM b64 cfg now outcome st).1 = .ok tok ∧
        (getTokenM b64 cfg now outcome st).2.1.token = some tok ∧
        ((resp.expires_in = none ∨ resp.expires_in = some 0) →
          (getTokenM b64 cfg now outcome st).2.1.tokenExpiry = some (now + 3600 * 1000)) ∧
        (∀ n, resp.expires_in = some n → n ≠ 0 →
          (getTokenM b64 cfg now outcome st).2.1.tokenExpiry = some (now + n * 1000)))) := by
  constructor
  · intro t e ht hne he hgt
    have hcv : cacheValid now st.token st.tokenExpiry = true := by
      simp [cacheValid, ht, he, strTruthy, hne, hgt]
    unfold getTokenM
    rw [hcv, ht]
    rfl
  · intro hcv
    rw [getTokenM_refresh b64 cfg now outcome st hcv]
    refine ⟨rfl, ?_⟩
    intro resp tok hout htok hne
    subst hout
    have hst : strTruthy (some tok) = true := by simp [strTruthy, hne]
    refine ⟨?_, ?_, ?_, ?_⟩
    · show (refreshTokenM now (.ok resp) st).1 = .ok tok
      simp [refreshTokenM, htok, strTruthy, hne]
    · show (refreshTokenM now (.ok resp) st).2.token = some tok
      simp [refreshTokenM, htok, strTruthy, hne]
    · intro hei
      show (refreshTokenM now (.ok resp) st).2.tokenExpiry = some (now + 3600 * 1000)
      rcases hei with hei | hei <;>
        simp [refreshTokenM, htok, hei, strTruthy, hne, natTruthy]
    · intro n hn hnz
      show (refreshTokenM now (.ok resp) st).2.tokenExpiry = some (now + n * 1000)
      simp [refreshTokenM, htok, hn, strTruthy, hne, natTruthy, hnz]

/-- Witness for C5 (amended) on a cold cache and an ok response with
`expires_in` absent: one request, token returned, default expiry. -/
theorem getToken_spec_witness :
    (getTokenM (fun s => s) { clientId := "a", clientSecret := "b", environment := .demo } 5
        (.ok { access_token := some "tok", expires_in := none })
        { token := none, tokenExpiry := none }).2.2
      = [buildTokenRequest (fun s => s)
          { clientId := "a", clientSecret := "b", environment := .demo }] ∧
    (getTokenM (fun s => s) { clientId := "a", clientSecret := "b", environment := .demo } 5
        (.ok { access_token := some "tok", expires_in := none })
        { token := none, tokenExpiry := none }).1 = .ok "tok" ∧
    (getTokenM (fun s => s) { clientId := "a", clientSecret := "b", environment := .demo } 5
        (.ok { access_token := some "tok", expires_in := none })
        { token := none, tokenExpiry := none }).2.1.tokenExpiry = some (5 + 3600 * 1000) := by
  have h := (getToken_spec (fun s => s)
    { clientId := "a", clientSecret := "b", environment := .demo } 5
    (.ok { access_token := some "tok", expires_in := none })
    { token := none, tokenExpiry := none }).2 rfl
  have hc := h.2 { access_token := some "tok", expires_in := none } "tok" rfl rfl (by decide)
  exact ⟨h.1, hc.1, hc.2.2.1 (.inl rfl)⟩

/-- After k ≥ 1 caller arrivals during an invalid-cache window: exactly
one request has been issued and all k callers await the single
in-flight refresh. -/
theorem startCall_iterate (now : Nat) (k : Nat) (hk : 1 ≤ k) :
    (startCall now)^[k] initialCoalesceState =
      { token := none, tokenExpiry := none, refreshInFlight := true,
        requests := 1, waiting := k, results := [] } := by
  induction k with
  | zero => omega
  | succ n ih =>
    rcases Nat.eq_zero_or_pos n with h0 | hpos
    · subst h0
      rfl
    · rw [Function.iterate_succ_apply', ih hpos]
      rfl

/-- Claim C6: for N ≥ 1 concurrent `getToken` calls arriving while no
valid token is cached, exactly one outbound authorization request is
issued; when the shared refresh settles with an ok response carrying a
token, all N calls resolve to that same token; and whatever the outcome
(success or failure), the pending handle is cleared afterwards. -/
theorem getToken_coalescing (now N : Nat) (hN : 1 ≤ N) (tok : String) (htok : tok ≠ "")
    (resp : TokenResponseM) (hresp : resp.access_token = some tok) (outcome : FetchOutcome) :
    ((startCall now)^[N] initialCoalesceState).requests = 1 ∧
    (completeRefresh now (.ok resp) ((startCall now)^[N] initialCoalesceState)).results
      = List.replicate N (.ok tok) ∧
    (completeRefresh now outcome ((startCall now)^[N] initialCoalesceState)).refreshInFlight
      = false := by
  rw [startCall_iterate now N hN]
  have hst : strTruthy (some tok) = true := by simp [strTruthy, htok]
  refine ⟨rfl, ?_, ?_⟩
  · show [] ++ List.replicate N
        (refreshTokenM now (.ok resp) { token := none, tokenExpiry := none }).1
      = List.replicate N (.ok tok)
    have hr : (refreshTokenM now (.ok resp) { token := none, tokenExpiry := none }).1
        = .ok tok := by
      simp [refreshTokenM, hresp, strTruthy, htok]
    rw [hr, List.nil_append]
  · rfl

/-- Witness for C6 with two concurrent callers: one request, both
resolve to "t", and even a failing completion clears the handle. -/
theorem getToken_coalescing_witness :
    ((startCall 0)^[2] initialCoalesceState).requests = 1 ∧
    (completeRefresh 0 (.ok { access_token := some "t", expires_in := some 3600 })
        ((startCall 0)^[2] initialCoalesceState)).results = List.replicate 2 (.ok "t") ∧
    (completeRefresh 0 (.netError "down")
        ((startCall 0)^[2] initialCoalesceState)).refreshInFlight = false :=
  getToken_coalescing 0 2 (by decide) "t" (by decide)
    { access_token := some "t", expires_in := some 3600 } rfl (.netError "down")

end VivaWallet
